import Mathlib

/-!
Shallow embedding of the structured volume-command engine of this repository
(`src/volume_selector.py` and `src/tool_executor.py`), with theorems checking
the specification's claims about it.

Modelling conventions:
- Python floats are modelled by exact rational arithmetic (`ℚ`).
- A comparison `sqrt s <= r` (with `s ≥ 0`) is embedded radical-free as
  `0 ≤ r ∧ s ≤ r ^ 2`, which is exactly equivalent over the reals.
- A Python dict access `d["k"]` that may raise `KeyError` is embedded as an
  `Except String` action whose error payload is the key name; an uncaught
  exception is a `.error` result of the surrounding function.
- Blender's `Matrix.Translation(c) @ q.to_matrix().to_4x4()` and its 4x4
  `inverted()` are embedded as an affine map (3x3 linear part plus
  translation) and its exact affine inverse, the linear part inverted by
  adjugate over determinant, which is what the 4x4 inverse computes on an
  affine matrix.
-/

/-- A 3D point/vector with exact rational coordinates (models `mathutils.Vector`). -/
structure Vec3 where
  x : ℚ
  y : ℚ
  z : ℚ
deriving DecidableEq, Repr

def Vec3.sub (a b : Vec3) : Vec3 := ⟨a.x - b.x, a.y - b.y, a.z - b.z⟩

def Vec3.add (a b : Vec3) : Vec3 := ⟨a.x + b.x, a.y + b.y, a.z + b.z⟩

def Vec3.neg (a : Vec3) : Vec3 := ⟨-a.x, -a.y, -a.z⟩

def Vec3.zero : Vec3 := ⟨0, 0, 0⟩

/-- Squared Euclidean norm; `Vector.length` in the source is its square root. -/
def Vec3.normSq (a : Vec3) : ℚ := a.x ^ 2 + a.y ^ 2 + a.z ^ 2

/-- A quaternion in `wxyz` order (models `mathutils.Quaternion`). -/
structure Quat where
  w : ℚ
  x : ℚ
  y : ℚ
  z : ℚ
deriving DecidableEq, Repr

def Quat.normSq (q : Quat) : ℚ := q.w ^ 2 + q.x ^ 2 + q.y ^ 2 + q.z ^ 2

def Quat.conj (q : Quat) : Quat := ⟨q.w, -q.x, -q.y, -q.z⟩

/-- Hamilton product. -/
def Quat.mul (a b : Quat) : Quat :=
  ⟨a.w * b.w - a.x * b.x - a.y * b.y - a.z * b.z,
   a.w * b.x + a.x * b.w + a.y * b.z - a.z * b.y,
   a.w * b.y - a.x * b.z + a.y * b.w + a.z * b.x,
   a.w * b.z + a.x * b.y - a.y * b.x + a.z * b.w⟩

/-- Quaternion inverse: conjugate divided by the squared norm. -/
def Quat.inv (q : Quat) : Quat :=
  let n := q.normSq
  ⟨q.w / n, -q.x / n, -q.y / n, -q.z / n⟩

/-- Rotation of a vector by a (unit) quaternion via the sandwich product `q v q*`. -/
def quatRotate (q : Quat) (v : Vec3) : Vec3 :=
  let p := Quat.mul (Quat.mul q ⟨0, v.x, v.y, v.z⟩) q.conj
  ⟨p.x, p.y, p.z⟩

/-- A 3x3 rational matrix, row major (models `mathutils.Matrix` 3x3). -/
structure Mat3 where
  m00 : ℚ
  m01 : ℚ
  m02 : ℚ
  m10 : ℚ
  m11 : ℚ
  m12 : ℚ
  m20 : ℚ
  m21 : ℚ
  m22 : ℚ
deriving DecidableEq, Repr

theorem Mat3.ext_fields {A B : Mat3}
    (h00 : A.m00 = B.m00) (h01 : A.m01 = B.m01) (h02 : A.m02 = B.m02)
    (h10 : A.m10 = B.m10) (h11 : A.m11 = B.m11) (h12 : A.m12 = B.m12)
    (h20 : A.m20 = B.m20) (h21 : A.m21 = B.m21) (h22 : A.m22 = B.m22) : A = B := by
  cases A; cases B; simp_all

def Mat3.one : Mat3 := ⟨1, 0, 0, 0, 1, 0, 0, 0, 1⟩

def Mat3.mul (A B : Mat3) : Mat3 :=
  ⟨A.m00 * B.m00 + A.m01 * B.m10 + A.m02 * B.m20,
   A.m00 * B.m01 + A.m01 * B.m11 + A.m02 * B.m21,
   A.m00 * B.m02 + A.m01 * B.m12 + A.m02 * B.m22,
   A.m10 * B.m00 + A.m11 * B.m10 + A.m12 * B.m20,
   A.m10 * B.m01 + A.m11 * B.m11 + A.m12 * B.m21,
   A.m10 * B.m02 + A.m11 * B.m12 + A.m12 * B.m22,
   A.m20 * B.m00 + A.m21 * B.m10 + A.m22 * B.m20,
   A.m20 * B.m01 + A.m21 * B.m11 + A.m22 * B.m21,
   A.m20 * B.m02 + A.m21 * B.m12 + A.m22 * B.m22⟩

def Mat3.mulVec (A : Mat3) (v : Vec3) : Vec3 :=
  ⟨A.m00 * v.x + A.m01 * v.y + A.m02 * v.z,
   A.m10 * v.x + A.m11 * v.y + A.m12 * v.z,
   A.m20 * v.x + A.m21 * v.y + A.m22 * v.z⟩

def Mat3.smul (c : ℚ) (A : Mat3) : Mat3 :=
  ⟨c * A.m00, c * A.m01, c * A.m02, c * A.m10, c * A.m11, c * A.m12,
   c * A.m20, c * A.m21, c * A.m22⟩

def Mat3.det (A : Mat3) : ℚ :=
  A.m00 * (A.m11 * A.m22 - A.m12 * A.m21)
    - A.m01 * (A.m10 * A.m22 - A.m12 * A.m20)
    + A.m02 * (A.m10 * A.m21 - A.m11 * A.m20)

/-- Adjugate (transposed cofactor matrix). -/
def Mat3.adj (A : Mat3) : Mat3 :=
  ⟨A.m11 * A.m22 - A.m12 * A.m21,
   -(A.m01 * A.m22 - A.m02 * A.m21),
   A.m01 * A.m12 - A.m02 * A.m11,
   -(A.m10 * A.m22 - A.m12 * A.m20),
   A.m00 * A.m22 - A.m02 * A.m20,
   -(A.m00 * A.m12 - A.m02 * A.m10),
   A.m10 * A.m21 - A.m11 * A.m20,
   -(A.m00 * A.m21 - A.m01 * A.m20),
   A.m00 * A.m11 - A.m01 * A.m10⟩

/-- General matrix inverse as adjugate over determinant, the closed form the
numeric `Matrix.inverted()` of the source computes. -/
def Mat3.inv (A : Mat3) : Mat3 := Mat3.smul (1 / A.det) A.adj

theorem Mat3.adj_mul (A : Mat3) : A.adj.mul A = Mat3.smul A.det Mat3.one := by
  cases A
  apply Mat3.ext_fields <;> simp [Mat3.adj, Mat3.mul, Mat3.smul, Mat3.one, Mat3.det] <;> ring

theorem Mat3.det_mul (A B : Mat3) : (A.mul B).det = A.det * B.det := by
  cases A; cases B
  simp [Mat3.mul, Mat3.det]; ring

theorem Mat3.det_one : Mat3.one.det = 1 := by
  simp [Mat3.one, Mat3.det]

theorem Mat3.mul_assoc (A B C : Mat3) : (A.mul B).mul C = A.mul (B.mul C) := by
  cases A; cases B; cases C
  apply Mat3.ext_fields <;> simp [Mat3.mul] <;> ring

theorem Mat3.mul_one (A : Mat3) : A.mul Mat3.one = A := by
  cases A
  apply Mat3.ext_fields <;> simp [Mat3.mul, Mat3.one]

theorem Mat3.smul_mul (c : ℚ) (A B : Mat3) : (Mat3.smul c A).mul B = Mat3.smul c (A.mul B) := by
  cases A; cases B
  apply Mat3.ext_fields <;> simp [Mat3.mul, Mat3.smul] <;> ring

theorem Mat3.smul_smul (c d : ℚ) (A : Mat3) :
    Mat3.smul c (Mat3.smul d A) = Mat3.smul (c * d) A := by
  cases A
  apply Mat3.ext_fields <;> simp [Mat3.smul] <;> ring

theorem Mat3.one_smul (A : Mat3) : Mat3.smul 1 A = A := by
  cases A
  apply Mat3.ext_fields <;> simp [Mat3.smul]

theorem Mat3.one_mul (A : Mat3) : Mat3.one.mul A = A := by
  cases A
  apply Mat3.ext_fields <;> simp [Mat3.mul, Mat3.one]

/-- The adjugate-over-determinant inverse agrees with any two-sided inverse. -/
theorem Mat3.inv_eq_of_mul (A B : Mat3) (h1 : A.mul B = Mat3.one)
    (h2 : B.mul A = Mat3.one) : A.inv = B := by
  have hdet : A.det * B.det = 1 := by
    rw [← Mat3.det_mul, h1, Mat3.det_one]
  have hA0 : A.det ≠ 0 := by
    intro h0
    rw [h0, zero_mul] at hdet
    exact zero_ne_one hdet
  have hadj : A.adj = Mat3.smul A.det B := by
    calc A.adj = A.adj.mul Mat3.one := (Mat3.mul_one _).symm
    _ = A.adj.mul (A.mul B) := by rw [h1]
    _ = (A.adj.mul A).mul B := (Mat3.mul_assoc _ _ _).symm
    _ = (Mat3.smul A.det Mat3.one).mul B := by rw [Mat3.adj_mul]
    _ = Mat3.smul A.det (Mat3.one.mul B) := Mat3.smul_mul _ _ _
    _ = Mat3.smul A.det B := by rw [Mat3.one_mul]
  rw [Mat3.inv, hadj, Mat3.smul_smul, one_div, inv_mul_cancel₀ hA0, Mat3.one_smul]

theorem Mat3.one_inv : Mat3.one.inv = Mat3.one :=
  Mat3.inv_eq_of_mul _ _ (Mat3.one_mul _) (Mat3.one_mul _)

theorem Mat3.one_mulVec (v : Vec3) : Mat3.one.mulVec v = v := by
  cases v
  simp [Mat3.one, Mat3.mulVec]

theorem Mat3.mulVec_sub (A : Mat3) (v w : Vec3) :
    Vec3.sub (A.mulVec v) (A.mulVec w) = A.mulVec (v.sub w) := by
  cases A; cases v; cases w
  simp [Mat3.mulVec, Vec3.sub]; refine ⟨by ring, by ring, by ring⟩

/-- The rotation matrix of a unit quaternion, as produced by
`mathutils.Quaternion.to_matrix()` (standard formula). -/
def quatToMat (q : Quat) : Mat3 :=
  ⟨1 - 2 * (q.y ^ 2 + q.z ^ 2), 2 * (q.x * q.y - q.w * q.z), 2 * (q.x * q.z + q.w * q.y),
   2 * (q.x * q.y + q.w * q.z), 1 - 2 * (q.x ^ 2 + q.z ^ 2), 2 * (q.y * q.z - q.w * q.x),
   2 * (q.x * q.z - q.w * q.y), 2 * (q.y * q.z + q.w * q.x), 1 - 2 * (q.x ^ 2 + q.y ^ 2)⟩

theorem Quat.normSq_conj (q : Quat) : q.conj.normSq = q.normSq := by
  cases q
  simp [Quat.conj, Quat.normSq, neg_sq]

theorem Quat.conj_conj (q : Quat) : q.conj.conj = q := by
  cases q
  simp [Quat.conj]

theorem quatToMat_mul_conj (q : Quat) (h : q.normSq = 1) :
    (quatToMat q).mul (quatToMat q.conj) = Mat3.one := by
  obtain ⟨w, x, y, z⟩ := q
  have h' : w ^ 2 + x ^ 2 + y ^ 2 + z ^ 2 = 1 := h
  apply Mat3.ext_fields <;>
    simp only [quatToMat, Quat.conj, Mat3.mul, Mat3.one]
  · linear_combination (4 * (y ^ 2 + z ^ 2)) * h'
  · linear_combination (-4 * (x * y)) * h'
  · linear_combination (-4 * (x * z)) * h'
  · linear_combination (-4 * (x * y)) * h'
  · linear_combination (4 * (x ^ 2 + z ^ 2)) * h'
  · linear_combination (-4 * (y * z)) * h'
  · linear_combination (-4 * (x * z)) * h'
  · linear_combination (-4 * (y * z)) * h'
  · linear_combination (4 * (x ^ 2 + y ^ 2)) * h'

theorem quatToMat_inv (q : Quat) (h : q.normSq = 1) :
    (quatToMat q).inv = quatToMat q.conj := by
  refine Mat3.inv_eq_of_mul _ _ (quatToMat_mul_conj q h) ?_
  have h2 := quatToMat_mul_conj q.conj (by rw [Quat.normSq_conj]; exact h)
  rwa [Quat.conj_conj] at h2

theorem quat_inv_eq_conj (q : Quat) (h : q.normSq = 1) : q.inv = q.conj := by
  obtain ⟨w, x, y, z⟩ := q
  simp only [Quat.inv, Quat.normSq] at *
  rw [h]
  simp [Quat.conj]

/-- For a unit quaternion, the matrix of the conjugate equals rotation by the
quaternion inverse. -/
theorem quatToMat_conj_mulVec (q : Quat) (v : Vec3) (h : q.normSq = 1) :
    (quatToMat q.conj).mulVec v = quatRotate q.inv v := by
  rw [quat_inv_eq_conj q h]
  obtain ⟨w, x, y, z⟩ := q
  obtain ⟨vx, vy, vz⟩ := v
  have h' : w ^ 2 + x ^ 2 + y ^ 2 + z ^ 2 = 1 := h
  simp only [quatToMat, Quat.conj, Mat3.mulVec, quatRotate, Quat.mul, Vec3.mk.injEq]
  refine ⟨?_, ?_, ?_⟩
  · linear_combination (-vx) * h'
  · linear_combination (-vy) * h'
  · linear_combination (-vz) * h'

theorem quatToMat_mulVec_normSq (q : Quat) (v : Vec3) (h : q.normSq = 1) :
    ((quatToMat q).mulVec v).normSq = v.normSq := by
  obtain ⟨w, x, y, z⟩ := q
  obtain ⟨vx, vy, vz⟩ := v
  have h' : w ^ 2 + x ^ 2 + y ^ 2 + z ^ 2 = 1 := h
  simp only [quatToMat, Mat3.mulVec, Vec3.normSq]
  linear_combination (4 * ((x ^ 2 + y ^ 2 + z ^ 2) * (vx ^ 2 + vy ^ 2 + vz ^ 2)
    - (x * vx + y * vy + z * vz) ^ 2)) * h'

/-- An affine transform `p ↦ linear p + trans` (a 4x4 matrix with bottom row
`0 0 0 1` in the source). -/
structure AffineT where
  linear : Mat3
  trans : Vec3

def AffineT.apply (T : AffineT) (p : Vec3) : Vec3 := (T.linear.mulVec p).add T.trans

/-- Exact inverse of an affine transform, as the 4x4 `inverted()` computes. -/
def AffineT.inv (T : AffineT) : AffineT :=
  ⟨T.linear.inv, (T.linear.inv.mulVec T.trans).neg⟩

/-- Embeds `Matrix.Translation(center) @ q.to_matrix().to_4x4()` (rotation part
absent when no quaternion is given). -/
def volumeTransform (rot : Option Quat) (center : Vec3) : AffineT :=
  ⟨match rot with
    | none => Mat3.one
    | some q => quatToMat q,
   center⟩

/-- World-to-local transform of `select_vertices_in_volume`: the inverse of the
volume's placement transform, applied to a world point. -/
def toLocal (rot : Option Quat) (center : Vec3) (p : Vec3) : Vec3 :=
  (volumeTransform rot center).inv.apply p

theorem toLocal_none (center p : Vec3) : toLocal none center p = p.sub center := by
  obtain ⟨cx, cy, cz⟩ := center
  obtain ⟨px, py, pz⟩ := p
  simp [toLocal, volumeTransform, AffineT.inv, AffineT.apply, Mat3.one_inv,
    Mat3.one_mulVec, Vec3.add, Vec3.neg, Vec3.sub]
  refine ⟨by ring, by ring, by ring⟩

theorem Vec3.add_neg_eq_sub (a b : Vec3) : a.add b.neg = a.sub b := by
  cases a; cases b
  simp [Vec3.add, Vec3.neg, Vec3.sub, sub_eq_add_neg]

theorem toLocal_some (q : Quat) (center p : Vec3) (h : q.normSq = 1) :
    toLocal (some q) center p = quatRotate q.inv (p.sub center) := by
  show ((quatToMat q).inv.mulVec p).add ((quatToMat q).inv.mulVec center).neg
    = quatRotate q.inv (p.sub center)
  rw [Vec3.add_neg_eq_sub, Mat3.mulVec_sub, quatToMat_inv q h,
    quatToMat_conj_mulVec _ _ h]

/-- Modelled from the spec for the refinement in C5: translate the world point
by minus the center, then rotate by the inverse of the rotation quaternion
(identity, an exact no-op, when absent). -/
def spec_to_local (rot : Option Quat) (center p : Vec3) : Vec3 :=
  match rot with
  | none => p.sub center
  | some q => quatRotate q.inv (p.sub center)

/-- Python dict access `d[k]`: raises `KeyError(k)` when the key is absent. -/
def getOpt {α : Type} (o : Option α) (k : String) : Except String α :=
  match o with
  | some v => Except.ok v
  | none => Except.error k

/-- The `volume_identifier` dictionary of the wire format: `type` is an open
string, the remaining keys may be absent. -/
structure VolumeId where
  type : String
  center_xyz : Option Vec3
  dimensions_xyz : Option Vec3
  radius : Option ℚ
  rotation_quaternion_wxyz : Option Quat
deriving DecidableEq, Repr

/-- Embeds the float comparison `sqrt s <= r` of the source (with `s ≥ 0`)
without radicals: exactly equivalent to `Real.sqrt s ≤ r`. -/
def sqrtLeQ (s r : ℚ) : Bool :=
  decide (0 ≤ r) && decide (s ≤ r ^ 2)

theorem sqrtLeQ_iff (s r : ℚ) :
    sqrtLeQ s r = true ↔ Real.sqrt (s : ℝ) ≤ (r : ℝ) := by
  rw [Real.sqrt_le_iff, sqrtLeQ]
  simp only [Bool.and_eq_true, decide_eq_true_eq]
  constructor
  · rintro ⟨h1, h2⟩
    refine ⟨by exact_mod_cast h1, by exact_mod_cast h2⟩
  · rintro ⟨h1, h2⟩
    refine ⟨by exact_mod_cast h1, by exact_mod_cast h2⟩

/-- Index collection of the source's `enumerate` + `append` loop: the indices
of list entries satisfying the predicate, in input order. -/
def selectIdx (l : List Vec3) (p : Vec3 → Bool) : List Nat :=
  ((l.enum).filter (fun iv => p iv.2)).map (fun iv => iv.1)

theorem mem_selectIdx (l : List Vec3) (p : Vec3 → Bool) (i : ℕ) :
    i ∈ selectIdx l p ↔ ∃ h : i < l.length, p (l.get ⟨i, h⟩) = true := by
  constructor
  · intro hmem
    rw [selectIdx, List.mem_map] at hmem
    obtain ⟨iv, hiv, rfl⟩ := hmem
    rw [List.mem_filter] at hiv
    obtain ⟨henum, hp⟩ := hiv
    obtain ⟨j, v⟩ := iv
    have hj := List.mk_mem_enum_iff_getElem?.mp henum
    rw [List.getElem?_eq_some] at hj
    obtain ⟨hlt, hv⟩ := hj
    exact ⟨hlt, by rwa [← hv] at hp⟩
  · rintro ⟨hlt, hp⟩
    rw [selectIdx, List.mem_map]
    refine ⟨(i, l.get ⟨i, hlt⟩), ?_, rfl⟩
    rw [List.mem_filter]
    refine ⟨List.mk_mem_enum_iff_getElem?.mpr ?_, hp⟩
    rw [List.getElem?_eq_some]
    exact ⟨hlt, rfl⟩

/-- Embedding of `VolumeSelector.select_vertices_in_volume`: transform all
vertices to volume-local space, then keep indices passing the containment
test of the volume's `type`; an unsupported type raises `ValueError`. -/
def select_vertices_in_volume (volume_id : VolumeId) (vertices : List Vec3) :
    Except String (List Nat) := do
  let center ← getOpt volume_id.center_xyz "center_xyz"
  let local_vertices := vertices.map (toLocal volume_id.rotation_quaternion_wxyz center)
  if volume_id.type = "box" then do
    let dims ← getOpt volume_id.dimensions_xyz "dimensions_xyz"
    Except.ok (selectIdx local_vertices (fun v =>
      decide (|v.x| ≤ dims.x / 2) && decide (|v.y| ≤ dims.y / 2) &&
        decide (|v.z| ≤ dims.z / 2)))
  else if volume_id.type = "sphere" then do
    let radius ← getOpt volume_id.radius "radius"
    Except.ok (selectIdx local_vertices (fun v => sqrtLeQ v.normSq radius))
  else if volume_id.type = "cylinder" then do
    let dims ← getOpt volume_id.dimensions_xyz "dimensions_xyz"
    Except.ok (selectIdx local_vertices (fun v =>
      sqrtLeQ (v.x ^ 2 + v.y ^ 2) dims.x && decide (|v.z| ≤ dims.z / 2)))
  else
    Except.error ("Unsupported volume type: " ++ volume_id.type)

/-- Per-face body of `VolumeSelector.select_faces_in_volume`: computes the
face center's local coordinates and the containment flag. Unlike the vertex
path, an unsupported type leaves `in_volume = False` instead of raising. -/
def face_in_volume (volume_id : VolumeId) (face_center : Vec3) :
    Except String Bool := do
  let center ← getOpt volume_id.center_xyz "center_xyz"
  let local_center := toLocal volume_id.rotation_quaternion_wxyz center face_center
  if volume_id.type = "box" then do
    let dims ← getOpt volume_id.dimensions_xyz "dimensions_xyz"
    Except.ok (decide (|local_center.x| ≤ dims.x / 2) &&
      decide (|local_center.y| ≤ dims.y / 2) && decide (|local_center.z| ≤ dims.z / 2))
  else if volume_id.type = "sphere" then do
    let radius ← getOpt volume_id.radius "radius"
    Except.ok (sqrtLeQ local_center.normSq radius)
  else if volume_id.type = "cylinder" then do
    let dims ← getOpt volume_id.dimensions_xyz "dimensions_xyz"
    Except.ok (sqrtLeQ (local_center.x ^ 2 + local_center.y ^ 2) dims.x &&
      decide (|local_center.z| ≤ dims.z / 2))
  else
    Except.ok false

def selectFacesAux (volume_id : VolumeId) : ℕ → List Vec3 → Except String (List Nat)
  | _, [] => Except.ok []
  | i, fc :: rest => do
    let b ← face_in_volume volume_id fc
    let rs ← selectFacesAux volume_id (i + 1) rest
    Except.ok (if b then i :: rs else rs)

/-- Embedding of `VolumeSelector.select_faces_in_volume` over the world-space
face centers supplied by the mesh. -/
def select_faces_in_volume (volume_id : VolumeId) (face_centers : List Vec3) :
    Except String (List Nat) :=
  selectFacesAux volume_id 0 face_centers

/-- Result dataclass of `tool_executor.py`. -/
structure ExecutionResult where
  success : Bool
  message : String
  affected_elements : Option (List ℤ)
deriving DecidableEq, Repr

/-- The `parameters` dictionary of a tool call; every key may be absent. -/
structure Params where
  volume_identifier : Option VolumeId
  extrude_vector : Option (List ℚ)
  scale_factor : Option ℚ
  transform_matrix : Option (List (List ℚ))
  material_name : Option String
  deformation_matrix : Option (List (List ℚ))
  subdivision_level : Option ℤ
  inset_depth : Option ℚ
deriving DecidableEq, Repr

/-- A raw tool-call dictionary: `function_name` and `parameters` keys may be
absent (their access in `execute_tool_calls` sits outside the try block). -/
structure ToolCall where
  function_name : Option String
  parameters : Option Params
deriving DecidableEq, Repr

structure Batch where
  tool_calls : List ToolCall
deriving DecidableEq, Repr

/-- Formatting of a 3-vector as the Python f-string prints the raw
`center_xyz` list (exact rational rendering in place of float `repr`). -/
def fmtVec (v : Vec3) : String := toString [v.x, v.y, v.z]

def emptyParams : Params := ⟨none, none, none, none, none, none, none, none⟩

def _extrude_faces_in_volume (volume_id : VolumeId) (params : Params) :
    Except String ExecutionResult := do
  let extrude_vector := params.extrude_vector.getD [0, 0, 1]
  let center ← getOpt volume_id.center_xyz "center_xyz"
  let vol_type := volume_id.type
  Except.ok ⟨true,
    "Extruded faces in " ++ vol_type ++ " volume at " ++ fmtVec center ++
      " by vector " ++ toString extrude_vector,
    some [1, 4, 7, 12]⟩

def _scale_vertices_in_volume (volume_id : VolumeId) (params : Params) :
    Except String ExecutionResult := do
  let scale_factor := params.scale_factor.getD 1
  let center ← getOpt volume_id.center_xyz "center_xyz"
  let vol_type := volume_id.type
  Except.ok ⟨true,
    "Scaled vertices in " ++ vol_type ++ " volume at " ++ fmtVec center ++
      " by factor " ++ toString scale_factor,
    some [5, 8, 11, 15, 22]⟩

def _transform_vertices_in_volume (volume_id : VolumeId) (params : Params) :
    Except String ExecutionResult := do
  let _transform_matrix := params.transform_matrix.getD
    [[1, 0, 0, 0], [0, 1, 0, 0], [0, 0, 1, 0], [0, 0, 0, 1]]
  let center ← getOpt volume_id.center_xyz "center_xyz"
  let vol_type := volume_id.type
  Except.ok ⟨true,
    "Applied transformation to vertices in " ++ vol_type ++ " volume at " ++ fmtVec center,
    some [3, 6, 9, 13, 18, 21]⟩

def _apply_material_to_volume (volume_id : VolumeId) (params : Params) :
    Except String ExecutionResult := do
  let material_name := params.material_name.getD "DefaultMaterial"
  let center ← getOpt volume_id.center_xyz "center_xyz"
  let vol_type := volume_id.type
  Except.ok ⟨true,
    "Applied material \x27" ++ material_name ++ "\x27 to " ++ vol_type ++
      " volume at " ++ fmtVec center,
    some [2, 5, 8, 14]⟩

def _deform_volume_lattice (volume_id : VolumeId) (params : Params) :
    Except String ExecutionResult := do
  let _deformation_matrix := params.deformation_matrix.getD
    [[1, 0, 0], [0, 1, 0], [0, 0, 1]]
  let center ← getOpt volume_id.center_xyz "center_xyz"
  let vol_type := volume_id.type
  Except.ok ⟨true,
    "Applied lattice deformation to " ++ vol_type ++ " volume at " ++ fmtVec center,
    some [1, 4, 7, 10, 16, 19]⟩

def _subdivide_faces_in_volume (volume_id : VolumeId) (params : Params) :
    Except String ExecutionResult := do
  let subdivision_level := params.subdivision_level.getD 1
  let center ← getOpt volume_id.center_xyz "center_xyz"
  let vol_type := volume_id.type
  Except.ok ⟨true,
    "Subdivided faces in " ++ vol_type ++ " volume at " ++ fmtVec center ++
      " (level " ++ toString subdivision_level ++ ")",
    some [3, 7, 11, 17, 23]⟩

def _inset_faces_in_volume (volume_id : VolumeId) (params : Params) :
    Except String ExecutionResult := do
  let inset_depth := params.inset_depth.getD (1 / 10)
  let center ← getOpt volume_id.center_xyz "center_xyz"
  let vol_type := volume_id.type
  Except.ok ⟨true,
    "Inset faces in " ++ vol_type ++ " volume at " ++ fmtVec center ++
      " (depth " ++ toString inset_depth ++ ")",
    some [2, 6, 12, 18]⟩

/-- Embedding of `ToolExecutor._execute_single_tool`. Note the
`volume_identifier` access happens before the name dispatch, so it can raise. -/
def execute_single_tool (function_name : String) (parameters : Params) :
    Except String ExecutionResult := do
  let volume_id ← getOpt parameters.volume_identifier "volume_identifier"
  if function_name = "extrude_faces_in_volume" then
    _extrude_faces_in_volume volume_id parameters
  else if function_name = "scale_vertices_in_volume" then
    _scale_vertices_in_volume volume_id parameters
  else if function_name = "transform_vertices_in_volume" then
    _transform_vertices_in_volume volume_id parameters
  else if function_name = "apply_material_to_volume" then
    _apply_material_to_volume volume_id parameters
  else if function_name = "deform_volume_lattice" then
    _deform_volume_lattice volume_id parameters
  else if function_name = "subdivide_faces_in_volume" then
    _subdivide_faces_in_volume volume_id parameters
  else if function_name = "inset_faces_in_volume" then
    _inset_faces_in_volume volume_id parameters
  else
    Except.ok ⟨false, "Unknown function: " ++ function_name, none⟩

def sevenOps : List String :=
  ["extrude_faces_in_volume", "scale_vertices_in_volume",
   "transform_vertices_in_volume", "apply_material_to_volume",
   "deform_volume_lattice", "subdivide_faces_in_volume",
   "inset_faces_in_volume"]

/-- The try/except body of the batch loop: a raised exception is converted to
a failed result, `"Error executing <op>: <cause>"`. -/
def dispatchResult (function_name : String) (parameters : Params) : ExecutionResult :=
  match execute_single_tool function_name parameters with
  | Except.ok r => r
  | Except.error e => ⟨false, "Error executing " ++ function_name ++ ": " ++ e, none⟩

/-- The loop of `execute_tool_calls`: reads `function_name` and `parameters`
outside the try block (their `KeyError` aborts the whole batch), then runs the
guarded dispatch. -/
def runCalls : List ToolCall → Except String (List ExecutionResult)
  | [] => Except.ok []
  | tc :: rest => do
    let fn ← getOpt tc.function_name "function_name"
    let ps ← getOpt tc.parameters "parameters"
    let r := dispatchResult fn ps
    let rs ← runCalls rest
    Except.ok (r :: rs)

/-- Embedding of `ToolExecutor.validate_tool_calls`: with no schema loaded,
validation is skipped and reports success. -/
def validate_tool_calls (schema : Option (Batch → Bool)) (b : Batch) : Bool :=
  match schema with
  | none => true
  | some check => check b

/-- Embedding of `ToolExecutor.execute_tool_calls`. -/
def execute_tool_calls (schema : Option (Batch → Bool)) (b : Batch) :
    Except String (List ExecutionResult) :=
  if validate_tool_calls schema b then runCalls b.tool_calls
  else Except.ok [⟨false, "Schema validation failed", none⟩]

/-- Modelled from the spec: the JSON schema file `schema/tool_calls_schema.json`
is not part of the repository, so the schema check is modelled from the wire
format of the spec, whose required fields are `function_name`,
`parameters.volume_identifier.type` and `parameters.volume_identifier.center_xyz`
(`type` is structurally always present here). -/
def spec_schema_check (b : Batch) : Bool :=
  b.tool_calls.all fun tc =>
    tc.function_name.isSome &&
      (match tc.parameters with
       | some ps =>
         (match ps.volume_identifier with
          | some vid => vid.center_xyz.isSome
          | none => false)
       | none => false)

/-- Round to the nearest integer, ties to even, as Python's fixed-point
formatting rounds the (here exact) scaled value. -/
def roundHalfEven (q : ℚ) : ℤ :=
  let f := Int.floor q
  let r := q - f
  if r < 1 / 2 then f
  else if 1 / 2 < r then f + 1
  else if f % 2 = 0 then f else f + 1

/-- One-decimal fixed-point rendering of a nonnegative rational, modelling the
`{:.1f}` format of the success rate. -/
def fmtFixed1 (q : ℚ) : String :=
  let n := (roundHalfEven (q * 10)).toNat
  toString (n / 10) ++ "." ++ toString (n % 10)

def statusStr (r : ExecutionResult) : String :=
  if r.success then "✓ SUCCESS" else "✗ FAILED"

/-- The affected-elements suffix; Python's truthiness drops it for `None` and
for an empty list alike. -/
def affectedStr (r : ExecutionResult) : String :=
  match r.affected_elements with
  | some l => if l.isEmpty then "" else " (affected: " ++ toString l.length ++ " elements)"
  | none => ""

def lineFor (i : ℕ) (r : ExecutionResult) : String :=
  toString (i + 1) ++ ". " ++ statusStr r ++ ": " ++ r.message ++ affectedStr r ++ "\n"

def linesStr : ℕ → List ExecutionResult → String
  | _, [] => ""
  | i, r :: rest => lineFor i r ++ linesStr (i + 1) rest

def reportHeader (total successful failed : ℕ) (rate : ℚ) : String :=
  "\n=== Tool Execution Report ===\n" ++
    (("Total Operations: " ++ toString total) ++
      ("\n" ++ (("Successful: " ++ toString successful) ++
        ("\n" ++ (("Failed: " ++ toString failed) ++
          ("\n" ++ (("Success Rate: " ++ fmtFixed1 rate ++ "%") ++
            "\n\n=== Operation Details ===\n")))))))

/-- Embedding of `ToolExecutor.generate_execution_report`. The success-rate
division is Python float division, which raises `ZeroDivisionError` when the
result list is empty; the explicit guard models that exception. -/
def generate_execution_report (results : List ExecutionResult) :
    Except String String :=
  let total_operations := results.length
  let successful_operations := (results.filter (fun r => r.success)).length
  let failed_operations := total_operations - successful_operations
  if total_operations = 0 then Except.error "ZeroDivisionError"
  else
    Except.ok (reportHeader total_operations successful_operations failed_operations
        ((successful_operations : ℚ) / (total_operations : ℚ) * 100) ++
      linesStr 0 results)

/-- Bool test: the first list leads the second. -/
def leadB {α : Type} [DecidableEq α] : List α → List α → Bool
  | [], _ => true
  | _ :: _, [] => false
  | a :: as, b :: bs => decide (a = b) && leadB as bs

/-- Bool test: the first list occurs contiguously inside the second. -/
def hasSubB {α : Type} [DecidableEq α] : List α → List α → Bool
  | pat, [] => pat.isEmpty
  | pat, c :: tl => leadB pat (c :: tl) || hasSubB pat tl

/-- The pattern string occurs contiguously in `s`. -/
def strContains (s pat : String) : Prop := hasSubB pat.data s.data = true

instance (s pat : String) : Decidable (strContains s pat) := by
  unfold strContains
  infer_instance

theorem leadB_self_append {α : Type} [DecidableEq α] (p t : List α) :
    leadB p (p ++ t) = true := by
  induction p with
  | nil => rfl
  | cons a as ih => simp [leadB, ih]

theorem leadB_append {α : Type} [DecidableEq α] (p l t : List α)
    (h : leadB p l = true) : leadB p (l ++ t) = true := by
  induction p generalizing l with
  | nil => rfl
  | cons a as ih =>
    cases l with
    | nil => simp [leadB] at h
    | cons c tl =>
      simp only [leadB, Bool.and_eq_true, decide_eq_true_eq] at h
      obtain ⟨rfl, h2⟩ := h
      simp only [List.cons_append, leadB, decide_eq_true_eq, Bool.and_eq_true]
      refine ⟨?_, ih tl h2⟩
      simp

theorem hasSubB_nil_pat {α : Type} [DecidableEq α] (l : List α) :
    hasSubB ([] : List α) l = true := by
  cases l <;> simp [hasSubB, leadB, List.isEmpty]

theorem hasSubB_of_leadB {α : Type} [DecidableEq α] (p l : List α)
    (h : leadB p l = true) : hasSubB p l = true := by
  cases l with
  | nil =>
    cases p with
    | nil => rfl
    | cons a as => simp [leadB] at h
  | cons c tl => simp [hasSubB, h]

theorem hasSubB_self_append {α : Type} [DecidableEq α] (p t : List α) :
    hasSubB p (p ++ t) = true :=
  hasSubB_of_leadB _ _ (leadB_self_append p t)

theorem hasSubB_cons {α : Type} [DecidableEq α] (p l : List α) (c : α)
    (h : hasSubB p l = true) : hasSubB p (c :: l) = true := by
  cases l with
  | nil =>
    cases p with
    | nil => rfl
    | cons a as => simp [hasSubB, List.isEmpty] at h
  | cons d tl =>
    rw [show hasSubB p (c :: d :: tl) = (leadB p (c :: d :: tl) || hasSubB p (d :: tl))
        from rfl,
      Bool.or_eq_true]
    exact Or.inr h

theorem hasSubB_append_left {α : Type} [DecidableEq α] (a p l : List α)
    (h : hasSubB p l = true) : hasSubB p (a ++ l) = true := by
  induction a with
  | nil => exact h
  | cons c cs ih => exact hasSubB_cons p (cs ++ l) c ih

theorem hasSubB_append_right {α : Type} [DecidableEq α] (p l t : List α)
    (h : hasSubB p l = true) : hasSubB p (l ++ t) = true := by
  induction l with
  | nil =>
    cases p with
    | nil => exact hasSubB_nil_pat t
    | cons a as => simp [hasSubB, List.isEmpty] at h
  | cons c tl ih =>
    rw [List.cons_append,
      show hasSubB p (c :: (tl ++ t)) = (leadB p (c :: (tl ++ t)) || hasSubB p (tl ++ t))
        from rfl,
      Bool.or_eq_true]
    rw [show hasSubB p (c :: tl) = (leadB p (c :: tl) || hasSubB p tl) from rfl,
      Bool.or_eq_true] at h
    rcases h with h | h
    · left
      have := leadB_append p (c :: tl) t h
      simpa using this
    · right
      exact ih h

theorem strContains_self_append (p t : String) : strContains (p ++ t) p := by
  unfold strContains
  rw [String.data_append]
  exact hasSubB_self_append p.data t.data

theorem strContains_append_left (s t pat : String) (h : strContains t pat) :
    strContains (s ++ t) pat := by
  unfold strContains at *
  rw [String.data_append]
  exact hasSubB_append_left s.data pat.data t.data h

theorem strContains_append_right (s t pat : String) (h : strContains s pat) :
    strContains (s ++ t) pat := by
  unfold strContains at *
  rw [String.data_append]
  exact hasSubB_append_right pat.data s.data t.data h

theorem strContains_self (p : String) : strContains p p := by
  unfold strContains
  have h1 := leadB_self_append p.data ([] : List Char)
  rw [List.append_nil] at h1
  exact hasSubB_of_leadB _ _ h1

theorem Vec3.sub_self (a : Vec3) : a.sub a = Vec3.zero := by
  cases a
  simp [Vec3.sub, Vec3.zero]

theorem Mat3.mulVec_zero (A : Mat3) : A.mulVec Vec3.zero = Vec3.zero := by
  cases A
  simp [Mat3.mulVec, Vec3.zero]

theorem Vec3.sub_sub_sub_cancel (p p' c : Vec3) : (p.sub c).sub (p'.sub c) = p.sub p' := by
  cases p; cases p'; cases c
  simp only [Vec3.sub, Vec3.mk.injEq]
  refine ⟨by ring, by ring, by ring⟩

theorem toLocal_mat (q : Quat) (center p : Vec3) :
    toLocal (some q) center p = (quatToMat q).inv.mulVec (p.sub center) := by
  show ((quatToMat q).inv.mulVec p).add ((quatToMat q).inv.mulVec center).neg
    = (quatToMat q).inv.mulVec (p.sub center)
  rw [Vec3.add_neg_eq_sub, Mat3.mulVec_sub]

theorem select_mem_box (vol : VolumeId) (verts : List Vec3) (c dims : Vec3)
    (sel : List ℕ) (hc : vol.center_xyz = some c) (ht : vol.type = "box")
    (hd : vol.dimensions_xyz = some dims)
    (hsel : select_vertices_in_volume vol verts = Except.ok sel)
    (i : ℕ) (hi : i < verts.length) :
    i ∈ sel ↔
      (let v := toLocal vol.rotation_quaternion_wxyz c (verts.get ⟨i, hi⟩)
       |v.x| ≤ dims.x / 2 ∧ |v.y| ≤ dims.y / 2 ∧ |v.z| ≤ dims.z / 2) := by
  simp only [select_vertices_in_volume, hc, ht, hd, getOpt, reduceIte, Bind.bind, Except.bind,
    Except.ok.injEq, if_true] at hsel
  subst hsel
  rw [mem_selectIdx]
  constructor
  · rintro ⟨h, hq⟩
    rw [List.get_map] at hq
    simp only [Bool.and_eq_true, decide_eq_true_eq] at hq
    exact ⟨hq.1.1, hq.1.2, hq.2⟩
  · intro hq
    refine ⟨by simpa using hi, ?_⟩
    rw [List.get_map]
    simp only [Bool.and_eq_true, decide_eq_true_eq]
    exact ⟨⟨hq.1, hq.2.1⟩, hq.2.2⟩

theorem select_mem_sphere (vol : VolumeId) (verts : List Vec3) (c : Vec3) (r : ℚ)
    (sel : List ℕ) (hc : vol.center_xyz = some c) (ht : vol.type = "sphere")
    (hr : vol.radius = some r)
    (hsel : select_vertices_in_volume vol verts = Except.ok sel)
    (i : ℕ) (hi : i < verts.length) :
    i ∈ sel ↔
      Real.sqrt (((toLocal vol.rotation_quaternion_wxyz c (verts.get ⟨i, hi⟩)).normSq : ℝ))
        ≤ (r : ℝ) := by
  simp only [select_vertices_in_volume, hc, ht, hr, getOpt, Bind.bind, Except.bind] at hsel
  rw [if_neg (show ¬ ("sphere" = "box") by decide)] at hsel
  simp only [if_true] at hsel
  rw [Except.ok.injEq] at hsel
  subst hsel
  rw [mem_selectIdx]
  constructor
  · rintro ⟨h, hq⟩
    rw [List.get_map] at hq
    exact (sqrtLeQ_iff _ _).mp hq
  · intro hq
    refine ⟨by simpa using hi, ?_⟩
    rw [List.get_map]
    exact (sqrtLeQ_iff _ _).mpr hq

theorem select_mem_cylinder (vol : VolumeId) (verts : List Vec3) (c dims : Vec3)
    (sel : List ℕ) (hc : vol.center_xyz = some c) (ht : vol.type = "cylinder")
    (hd : vol.dimensions_xyz = some dims)
    (hsel : select_vertices_in_volume vol verts = Except.ok sel)
    (i : ℕ) (hi : i < verts.length) :
    i ∈ sel ↔
      (let v := toLocal vol.rotation_quaternion_wxyz c (verts.get ⟨i, hi⟩)
       Real.sqrt (((v.x ^ 2 + v.y ^ 2 : ℚ) : ℝ)) ≤ (dims.x : ℝ) ∧ |v.z| ≤ dims.z / 2) := by
  simp only [select_vertices_in_volume, hc, ht, hd, getOpt, Bind.bind, Except.bind] at hsel
  rw [if_neg (show ¬ ("cylinder" = "box") by decide),
    if_neg (show ¬ ("cylinder" = "sphere") by decide)] at hsel
  simp only [if_true] at hsel
  rw [Except.ok.injEq] at hsel
  subst hsel
  rw [mem_selectIdx]
  constructor
  · rintro ⟨h, hq⟩
    rw [List.get_map] at hq
    simp only [Bool.and_eq_true, decide_eq_true_eq] at hq
    exact ⟨(sqrtLeQ_iff _ _).mp hq.1, hq.2⟩
  · intro hq
    refine ⟨by simpa using hi, ?_⟩
    rw [List.get_map]
    simp only [Bool.and_eq_true, decide_eq_true_eq]
    exact ⟨(sqrtLeQ_iff _ _).mpr hq.1, hq.2⟩

/-- C5: for every volume descriptor (its rotation, when present, being a unit
quaternion, the precondition Blender's `quat_to_mat3` documents), the
world-to-local transform of the selector equals the spec's description —
translate by minus the center, then rotate by the inverse of the rotation,
the identity when absent — maps the center exactly to the origin, is an exact
no-op rotation without a rotation, and is rigid (squared distances are
preserved exactly; arithmetic is modelled exactly over `ℚ`). -/
theorem c5_world_to_local_transform (rot : Option Quat) (c p p' : Vec3)
    (hunit : ∀ q, rot = some q → q.normSq = 1) :
    toLocal rot c p = spec_to_local rot c p ∧
    toLocal rot c c = Vec3.zero ∧
    (rot = none → toLocal rot c p = p.sub c) ∧
    ((toLocal rot c p).sub (toLocal rot c p')).normSq = (p.sub p').normSq := by
  cases rot with
  | none =>
    refine ⟨?_, ?_, fun _ => toLocal_none c p, ?_⟩
    · rw [toLocal_none]; rfl
    · rw [toLocal_none, Vec3.sub_self]
    · rw [toLocal_none, toLocal_none, Vec3.sub_sub_sub_cancel]
  | some q =>
    have hq := hunit q rfl
    refine ⟨?_, ?_, fun h => Option.noConfusion h, ?_⟩
    · rw [toLocal_some q c p hq]; rfl
    · rw [toLocal_mat, Vec3.sub_self, Mat3.mulVec_zero]
    · rw [toLocal_mat, toLocal_mat, Mat3.mulVec_sub, Vec3.sub_sub_sub_cancel,
        quatToMat_inv q hq]
      exact quatToMat_mulVec_normSq q.conj _ (by rw [Quat.normSq_conj]; exact hq)

/-- Witness for C5 at a concrete rotated descriptor. -/
theorem c5_world_to_local_transform_witness :
    toLocal (some ⟨3/5, 4/5, 0, 0⟩) ⟨1, 2, 3⟩ ⟨2, 0, 0⟩
        = spec_to_local (some ⟨3/5, 4/5, 0, 0⟩) ⟨1, 2, 3⟩ ⟨2, 0, 0⟩ ∧
      toLocal (some ⟨3/5, 4/5, 0, 0⟩) ⟨1, 2, 3⟩ ⟨1, 2, 3⟩ = Vec3.zero ∧
      ((some (⟨3/5, 4/5, 0, 0⟩ : Quat)) = none →
        toLocal (some ⟨3/5, 4/5, 0, 0⟩) ⟨1, 2, 3⟩ ⟨2, 0, 0⟩
          = Vec3.sub ⟨2, 0, 0⟩ ⟨1, 2, 3⟩) ∧
      ((toLocal (some ⟨3/5, 4/5, 0, 0⟩) ⟨1, 2, 3⟩ ⟨2, 0, 0⟩).sub
          (toLocal (some ⟨3/5, 4/5, 0, 0⟩) ⟨1, 2, 3⟩ ⟨0, 1, 0⟩)).normSq
        = (Vec3.sub ⟨2, 0, 0⟩ ⟨0, 1, 0⟩).normSq :=
  c5_world_to_local_transform (some ⟨3/5, 4/5, 0, 0⟩) ⟨1, 2, 3⟩ ⟨2, 0, 0⟩ ⟨0, 1, 0⟩
    (by
      intro q h
      rw [Option.some.injEq] at h
      subst h
      norm_num [Quat.normSq])

/-- C1: with identity rotation, vertex selection includes index `i` exactly
when the closed-form containment inequality of the descriptor's kind holds on
the vertex's local coordinates (translation by minus the center): box
half-extent bounds from `dimensions_xyz / 2`, sphere norm bound by `radius`,
cylinder radial and axial bounds, all boundaries inclusive. -/
theorem c1_identity_rotation_selection (vol : VolumeId) (verts : List Vec3)
    (c : Vec3) (sel : List ℕ)
    (hrot : vol.rotation_quaternion_wxyz = none)
    (hc : vol.center_xyz = some c)
    (hsel : select_vertices_in_volume vol verts = Except.ok sel)
    (i : ℕ) (hi : i < verts.length) :
    i ∈ sel ↔
      ((vol.type = "box" ∧ ∃ dims, vol.dimensions_xyz = some dims ∧
        (|((verts.get ⟨i, hi⟩).sub c).x| ≤ dims.x / 2 ∧
         |((verts.get ⟨i, hi⟩).sub c).y| ≤ dims.y / 2 ∧
         |((verts.get ⟨i, hi⟩).sub c).z| ≤ dims.z / 2)) ∨
       (vol.type = "sphere" ∧ ∃ r, vol.radius = some r ∧
         Real.sqrt ((((verts.get ⟨i, hi⟩).sub c).normSq : ℝ)) ≤ (r : ℝ)) ∨
       (vol.type = "cylinder" ∧ ∃ dims, vol.dimensions_xyz = some dims ∧
         Real.sqrt (((((verts.get ⟨i, hi⟩).sub c).x ^ 2
             + ((verts.get ⟨i, hi⟩).sub c).y ^ 2 : ℚ) : ℝ)) ≤ (dims.x : ℝ) ∧
         |((verts.get ⟨i, hi⟩).sub c).z| ≤ dims.z / 2)) := by
  by_cases hb : vol.type = "box"
  · cases hd : vol.dimensions_xyz with
    | none =>
      simp [select_vertices_in_volume, hc, hb, hd, getOpt, Bind.bind, Except.bind] at hsel
    | some dims =>
      have hm := select_mem_box vol verts c dims sel hc hb hd hsel i hi
      rw [hrot, toLocal_none] at hm
      rw [hm]
      constructor
      · intro h
        exact Or.inl ⟨hb, dims, rfl, h⟩
      · rintro (⟨-, dims', hd', h⟩ | ⟨hsph, -⟩ | ⟨hcyl, -⟩)
        · rw [Option.some.injEq] at hd'
          subst hd'
          exact h
        · rw [hb] at hsph
          exact absurd hsph (by decide)
        · rw [hb] at hcyl
          exact absurd hcyl (by decide)
  · by_cases hs : vol.type = "sphere"
    · cases hr : vol.radius with
      | none =>
        simp [select_vertices_in_volume, hc, hb, hs, hr, getOpt, Bind.bind, Except.bind] at hsel
      | some r =>
        have hm := select_mem_sphere vol verts c r sel hc hs hr hsel i hi
        rw [hrot, toLocal_none] at hm
        rw [hm]
        constructor
        · intro h
          exact Or.inr (Or.inl ⟨hs, r, rfl, h⟩)
        · rintro (⟨hbox, -⟩ | ⟨-, r', hr', h⟩ | ⟨hcyl, -⟩)
          · exact absurd hbox hb
          · rw [Option.some.injEq] at hr'
            subst hr'
            exact h
          · rw [hs] at hcyl
            exact absurd hcyl (by decide)
    · by_cases hcy : vol.type = "cylinder"
      · cases hd : vol.dimensions_xyz with
        | none =>
          simp [select_vertices_in_volume, hc, hb, hs, hcy, hd, getOpt, Bind.bind,
            Except.bind] at hsel
        | some dims =>
          have hm := select_mem_cylinder vol verts c dims sel hc hcy hd hsel i hi
          rw [hrot, toLocal_none] at hm
          rw [hm]
          constructor
          · intro h
            exact Or.inr (Or.inr ⟨hcy, dims, rfl, h⟩)
          · rintro (⟨hbox, -⟩ | ⟨hsph, -⟩ | ⟨-, dims', hd', h⟩)
            · exact absurd hbox hb
            · exact absurd hsph hs
            · rw [Option.some.injEq] at hd'
              subst hd'
              exact h
      · simp [select_vertices_in_volume, hc, hb, hs, hcy, getOpt, Bind.bind,
          Except.bind] at hsel

def c1Box : VolumeId := ⟨"box", some ⟨0, 0, 0⟩, some ⟨2, 2, 2⟩, none, none⟩

def c1Verts : List Vec3 := [⟨9/10, 9/10, 9/10⟩, ⟨11/10, 0, 0⟩]

theorem c1_box_eval : select_vertices_in_volume c1Box c1Verts = Except.ok [0] := by
  norm_num [select_vertices_in_volume, c1Box, c1Verts, getOpt, Bind.bind, Except.bind,
    selectIdx, List.enum, List.enumFrom, List.filter_cons, toLocal_none, Vec3.sub,
    decide_eq_true_eq, abs_le]

/-- Witness for C1: the box at the origin with dimensions `(2,2,2)` selects
the vertex `(0.9, 0.9, 0.9)` and not `(1.1, 0, 0)`, and the selection
biconditional holds at index 0. -/
theorem c1_identity_rotation_selection_witness :
    select_vertices_in_volume c1Box c1Verts = Except.ok [0] ∧
      ((0 : ℕ) ∈ [(0 : ℕ)] ↔
        ((c1Box.type = "box" ∧ ∃ dims, c1Box.dimensions_xyz = some dims ∧
          (|((c1Verts.get ⟨0, by decide⟩).sub ⟨0, 0, 0⟩).x| ≤ dims.x / 2 ∧
           |((c1Verts.get ⟨0, by decide⟩).sub ⟨0, 0, 0⟩).y| ≤ dims.y / 2 ∧
           |((c1Verts.get ⟨0, by decide⟩).sub ⟨0, 0, 0⟩).z| ≤ dims.z / 2)) ∨
         (c1Box.type = "sphere" ∧ ∃ r, c1Box.radius = some r ∧
           Real.sqrt ((((c1Verts.get ⟨0, by decide⟩).sub ⟨0, 0, 0⟩).normSq : ℝ)) ≤ (r : ℝ)) ∨
         (c1Box.type = "cylinder" ∧ ∃ dims, c1Box.dimensions_xyz = some dims ∧
           Real.sqrt (((((c1Verts.get ⟨0, by decide⟩).sub ⟨0, 0, 0⟩).x ^ 2
               + ((c1Verts.get ⟨0, by decide⟩).sub ⟨0, 0, 0⟩).y ^ 2 : ℚ) : ℝ)) ≤ (dims.x : ℝ) ∧
           |((c1Verts.get ⟨0, by decide⟩).sub ⟨0, 0, 0⟩).z| ≤ dims.z / 2))) :=
  ⟨c1_box_eval,
    c1_identity_rotation_selection c1Box c1Verts ⟨0, 0, 0⟩ [0] rfl rfl c1_box_eval 0
      (by decide)⟩

def c6Cyl : VolumeId := ⟨"cylinder", some ⟨0, 0, 0⟩, some ⟨1, 1, 2⟩, some 5, none⟩

theorem c6_cyl_eval : select_vertices_in_volume c6Cyl [⟨2, 0, 0⟩] = Except.ok [] := by
  simp only [select_vertices_in_volume, c6Cyl, getOpt, Bind.bind, Except.bind]
  rw [if_neg (show ¬("cylinder" = "box") by decide),
    if_neg (show ¬("cylinder" = "sphere") by decide)]
  simp only [if_true]
  norm_num [selectIdx, List.enum, List.enumFrom, List.filter_cons, toLocal_none,
    Vec3.sub, sqrtLeQ, decide_eq_true_eq, abs_le]

/-- Counterexample to C6 as stated: the descriptor's `radius` parameter is 5
and the local point `(2,0,0)` satisfies `sqrt(x²+y²) = 2 ≤ 5` and
`|z| = 0 ≤ half_height = 1`, yet the code selects nothing, because the
implementation takes the radial bound from `dimensions_xyz.x = 1`, not from
the `radius` parameter. -/
theorem c6_cylinder_counterexample :
    c6Cyl.radius = some 5 ∧
      Real.sqrt ((((Vec3.sub ⟨2, 0, 0⟩ ⟨0, 0, 0⟩).x ^ 2
          + (Vec3.sub ⟨2, 0, 0⟩ ⟨0, 0, 0⟩).y ^ 2 : ℚ) : ℝ)) ≤ ((5 : ℚ) : ℝ) ∧
      |(Vec3.sub ⟨2, 0, 0⟩ ⟨0, 0, 0⟩).z| ≤ (2 : ℚ) / 2 ∧
      select_vertices_in_volume c6Cyl [⟨2, 0, 0⟩] = Except.ok [] ∧
      (0 : ℕ) ∉ ([] : List ℕ) := by
  refine ⟨rfl, ?_, by norm_num [Vec3.sub], c6_cyl_eval, by decide⟩
  have h4 : (((Vec3.sub ⟨2, 0, 0⟩ ⟨0, 0, 0⟩).x ^ 2
      + (Vec3.sub ⟨2, 0, 0⟩ ⟨0, 0, 0⟩).y ^ 2 : ℚ) : ℝ) = (2 : ℝ) ^ 2 := by
    norm_num [Vec3.sub]
  rw [h4, Real.sqrt_sq (by norm_num)]
  norm_num

/-- C6 amended: a point is selected by a cylinder descriptor iff, in local
coordinates, `sqrt(x²+y²) ≤ dimensions_xyz.x` and `|z| ≤ dimensions_xyz.z / 2`
(the bounded axis is local Z; the code takes the radial bound from the x
dimension and the half-height from half the z dimension, ignoring the
descriptor's `radius` parameter). -/
theorem c6_cylinder_selection_amended (vol : VolumeId) (verts : List Vec3)
    (c dims : Vec3) (sel : List ℕ) (hc : vol.center_xyz = some c)
    (ht : vol.type = "cylinder") (hd : vol.dimensions_xyz = some dims)
    (hsel : select_vertices_in_volume vol verts = Except.ok sel)
    (i : ℕ) (hi : i < verts.length) :
    i ∈ sel ↔
      (let v := toLocal vol.rotation_quaternion_wxyz c (verts.get ⟨i, hi⟩)
       Real.sqrt (((v.x ^ 2 + v.y ^ 2 : ℚ) : ℝ)) ≤ (dims.x : ℝ) ∧ |v.z| ≤ dims.z / 2) :=
  select_mem_cylinder vol verts c dims sel hc ht hd hsel i hi

/-- Witness for the amended C6 at the concrete cylinder: index 0 is excluded
exactly because the radial inequality against `dimensions_xyz.x = 1` fails. -/
theorem c6_cylinder_selection_amended_witness :
    (0 : ℕ) ∈ ([] : List ℕ) ↔
      (let v := toLocal c6Cyl.rotation_quaternion_wxyz ⟨0, 0, 0⟩
        (([⟨2, 0, 0⟩] : List Vec3).get ⟨0, by decide⟩)
       Real.sqrt (((v.x ^ 2 + v.y ^ 2 : ℚ) : ℝ)) ≤ ((1 : ℚ) : ℝ) ∧ |v.z| ≤ (2 : ℚ) / 2) :=
  c6_cylinder_selection_amended c6Cyl [⟨2, 0, 0⟩] ⟨0, 0, 0⟩ ⟨1, 1, 2⟩ [] rfl rfl rfl
    c6_cyl_eval 0 (by decide)

def c4Cone : VolumeId := ⟨"cone", some ⟨0, 0, 0⟩, none, none, none⟩

/-- Counterexample to C4 as stated: for the unsupported kind "cone",
face selection does not fail with the unsupported-volume error; it silently
returns an empty selection (its `if/elif` chain has no `else: raise`). -/
theorem c4_face_counterexample :
    c4Cone.type ∉ ["box", "sphere", "cylinder"] ∧
      select_faces_in_volume c4Cone [⟨0, 0, 0⟩] = Except.ok [] := by
  refine ⟨by decide, ?_⟩
  have hface : face_in_volume c4Cone ⟨0, 0, 0⟩ = Except.ok false := by
    simp only [face_in_volume, c4Cone, getOpt, Bind.bind, Except.bind]
    rw [if_neg (show ¬("cone" = "box") by decide),
      if_neg (show ¬("cone" = "sphere") by decide),
      if_neg (show ¬("cone" = "cylinder") by decide)]
  simp only [select_faces_in_volume, selectFacesAux, hface, Bind.bind, Except.bind]
  rfl

theorem c4_faces_aux (vol : VolumeId) (c : Vec3) (hc : vol.center_xyz = some c)
    (hb : vol.type ≠ "box") (hs : vol.type ≠ "sphere") (hcy : vol.type ≠ "cylinder") :
    ∀ (i : ℕ) (centers : List Vec3),
      selectFacesAux vol i centers = Except.ok [] := by
  intro i centers
  induction centers generalizing i with
  | nil => rfl
  | cons fc rest ih =>
    have hface : face_in_volume vol fc = Except.ok false := by
      simp only [face_in_volume, hc, getOpt, Bind.bind, Except.bind]
      rw [if_neg hb, if_neg hs, if_neg hcy]
    simp only [selectFacesAux, hface, Bind.bind, Except.bind, ih (i + 1)]
    rfl

/-- C4 amended: for a volume kind outside box/sphere/cylinder, vertex
selection fails hard with the unsupported-volume error, but face selection
silently returns an empty selection instead of failing. -/
theorem c4_unsupported_kind_amended (vol : VolumeId) (verts centers : List Vec3)
    (c : Vec3) (hc : vol.center_xyz = some c)
    (ht : vol.type ∉ ["box", "sphere", "cylinder"]) :
    select_vertices_in_volume vol verts
        = Except.error ("Unsupported volume type: " ++ vol.type) ∧
      select_faces_in_volume vol centers = Except.ok [] := by
  have hb : vol.type ≠ "box" := fun h => ht (by rw [h]; decide)
  have hs : vol.type ≠ "sphere" := fun h => ht (by rw [h]; simp)
  have hcy : vol.type ≠ "cylinder" := fun h => ht (by rw [h]; simp)
  constructor
  · simp only [select_vertices_in_volume, hc, getOpt, Bind.bind, Except.bind]
    rw [if_neg hb, if_neg hs, if_neg hcy]
  · exact c4_faces_aux vol c hc hb hs hcy 0 centers

/-- Witness for the amended C4 at the concrete "cone" volume. -/
theorem c4_unsupported_kind_amended_witness :
    select_vertices_in_volume c4Cone [⟨1, 1, 1⟩]
        = Except.error ("Unsupported volume type: " ++ c4Cone.type) ∧
      select_faces_in_volume c4Cone [⟨1, 1, 1⟩] = Except.ok [] :=
  c4_unsupported_kind_amended c4Cone [⟨1, 1, 1⟩] [⟨1, 1, 1⟩] ⟨0, 0, 0⟩ rfl (by decide)

/-- Counterexample to C3 as stated: for an unknown function name with no
`volume_identifier` in the parameters, dispatch raises (`KeyError`, modelled
as `.error`) instead of returning the unknown-function result, because the
`volume_identifier` access precedes the name check. -/
theorem c3_unknown_function_counterexample :
    "bogus_op" ∉ sevenOps ∧
      execute_single_tool "bogus_op" emptyParams = Except.error "volume_identifier" :=
  ⟨by decide, rfl⟩

/-- C3 amended: for every command whose function name is outside the seven
operations and whose parameters do contain a `volume_identifier`, dispatch
returns `success = false`, message exactly `"Unknown function: <name>"` and no
affected elements, without raising; when `volume_identifier` is absent the
dispatcher instead raises before the name check. -/
theorem c3_unknown_function_amended (fn : String) (ps : Params) (vid : VolumeId)
    (hfn : fn ∉ sevenOps) (hv : ps.volume_identifier = some vid) :
    execute_single_tool fn ps
      = Except.ok ⟨false, "Unknown function: " ++ fn, none⟩ := by
  have h1 : fn ≠ "extrude_faces_in_volume" := fun h => hfn (by rw [h]; decide)
  have h2 : fn ≠ "scale_vertices_in_volume" := fun h => hfn (by rw [h]; decide)
  have h3 : fn ≠ "transform_vertices_in_volume" := fun h => hfn (by rw [h]; decide)
  have h4 : fn ≠ "apply_material_to_volume" := fun h => hfn (by rw [h]; decide)
  have h5 : fn ≠ "deform_volume_lattice" := fun h => hfn (by rw [h]; decide)
  have h6 : fn ≠ "subdivide_faces_in_volume" := fun h => hfn (by rw [h]; decide)
  have h7 : fn ≠ "inset_faces_in_volume" := fun h => hfn (by rw [h]; decide)
  simp only [execute_single_tool, hv, getOpt, Bind.bind, Except.bind]
  rw [if_neg h1, if_neg h2, if_neg h3, if_neg h4, if_neg h5, if_neg h6, if_neg h7]

/-- Witness for the amended C3 at a concrete unknown name. -/
theorem c3_unknown_function_amended_witness :
    execute_single_tool "bogus_op" ⟨some c1Box, none, none, none, none, none, none, none⟩
      = Except.ok ⟨false, "Unknown function: " ++ "bogus_op", none⟩ :=
  c3_unknown_function_amended "bogus_op" _ c1Box (by decide) rfl

/-- Counterexample to C2 as stated: a two-command batch that skips schema
validation (no schema loaded) and whose first call lacks the `parameters` key
aborts with an uncaught `KeyError` — the `parameters` read sits outside the
try block — so no per-command result list is produced at all, and the second
command is never executed. -/
theorem c2_batch_counterexample :
    validate_tool_calls none
        ⟨[⟨some "extrude_faces_in_volume", none⟩,
          ⟨some "scale_vertices_in_volume", some emptyParams⟩]⟩ = true ∧
      execute_tool_calls none
        ⟨[⟨some "extrude_faces_in_volume", none⟩,
          ⟨some "scale_vertices_in_volume", some emptyParams⟩]⟩
        = Except.error "parameters" :=
  ⟨rfl, rfl⟩

theorem runCalls_ok (calls : List ToolCall)
    (hk : ∀ tc ∈ calls, tc.function_name.isSome ∧ tc.parameters.isSome) :
    ∃ rs, runCalls calls = Except.ok rs ∧ rs.length = calls.length ∧
      ∀ i, i < calls.length →
        ∃ tc fn ps, calls.get? i = some tc ∧ tc.function_name = some fn ∧
          tc.parameters = some ps ∧ rs.get? i = some (dispatchResult fn ps) := by
  induction calls with
  | nil => exact ⟨[], rfl, rfl, fun i hi => absurd hi (by simp)⟩
  | cons tc rest ih =>
    obtain ⟨hfn, hps⟩ := hk tc (List.mem_cons_self tc rest)
    obtain ⟨fn, hfn'⟩ := Option.isSome_iff_exists.mp hfn
    obtain ⟨ps, hps'⟩ := Option.isSome_iff_exists.mp hps
    obtain ⟨rs, hrs, hlen, hidx⟩ := ih (fun x hx => hk x (List.mem_cons_of_mem tc hx))
    refine ⟨dispatchResult fn ps :: rs, ?_, by simp [hlen], ?_⟩
    · simp only [runCalls, hfn', hps', getOpt, Bind.bind, Except.bind, hrs]
    · intro i hi
      cases i with
      | zero => exact ⟨tc, fn, ps, rfl, hfn', hps', rfl⟩
      | succ j =>
        obtain ⟨tc', fn', ps', h1, h2, h3, h4⟩ := hidx j (by simpa using hi)
        exact ⟨tc', fn', ps', h1, h2, h3, h4⟩

/-- C2 amended: for every batch that passes schema validation, or skips it
while every tool call carries its `function_name` and `parameters` keys,
execution returns one ExecutionResult per tool call in input order; an
exception inside single-tool execution is converted to a failed result
`"Error executing <op>: <cause>"` and does not prevent later commands (each
result is determined by its own call alone). A call missing `function_name`
or `parameters` raises an uncaught `KeyError` instead, because those reads
sit outside the try block. -/
theorem c2_batch_execution_amended (schema : Option (Batch → Bool)) (b : Batch)
    (hv : validate_tool_calls schema b = true)
    (hk : ∀ tc ∈ b.tool_calls, tc.function_name.isSome ∧ tc.parameters.isSome) :
    ∃ rs, execute_tool_calls schema b = Except.ok rs ∧
      rs.length = b.tool_calls.length ∧
      ∀ i, i < b.tool_calls.length →
        ∃ tc fn ps, b.tool_calls.get? i = some tc ∧ tc.function_name = some fn ∧
          tc.parameters = some ps ∧ rs.get? i = some (dispatchResult fn ps) := by
  have hr := runCalls_ok b.tool_calls hk
  simpa only [execute_tool_calls, hv, if_true] using hr

/-- Witness for the amended C2: a two-command batch whose first command
raises inside dispatch (missing `volume_identifier`, converted to an error
result) and whose second succeeds. -/
theorem c2_batch_execution_amended_witness :
    validate_tool_calls none
        ⟨[⟨some "bogus_op", some emptyParams⟩,
          ⟨some "scale_vertices_in_volume",
            some ⟨some c1Box, none, none, none, none, none, none, none⟩⟩]⟩ = true ∧
      (∃ rs, execute_tool_calls none
          ⟨[⟨some "bogus_op", some emptyParams⟩,
            ⟨some "scale_vertices_in_volume",
              some ⟨some c1Box, none, none, none, none, none, none, none⟩⟩]⟩
          = Except.ok rs ∧
        rs.length = 2 ∧
        ∀ i, i < 2 →
          ∃ tc fn ps,
            ([(⟨some "bogus_op", some emptyParams⟩ : ToolCall),
              ⟨some "scale_vertices_in_volume",
                some ⟨some c1Box, none, none, none, none, none, none, none⟩⟩]).get? i
              = some tc ∧
            tc.function_name = some fn ∧ tc.parameters = some ps ∧
            rs.get? i = some (dispatchResult fn ps)) :=
  ⟨rfl,
    c2_batch_execution_amended none
      ⟨[⟨some "bogus_op", some emptyParams⟩,
        ⟨some "scale_vertices_in_volume",
          some ⟨some c1Box, none, none, none, none, none, none, none⟩⟩]⟩
      rfl (by decide)⟩

/-- C7: a batch in which some tool call is missing `center_xyz` on its volume
(or the whole `volume_identifier` or `parameters`) fails the spec's schema
check, and batch execution then returns the single aggregate failure result
without dispatching any command: zero per-command results. -/
theorem c7_schema_failure_aggregate (b : Batch) (tc : ToolCall)
    (htc : tc ∈ b.tool_calls)
    (hmiss : (tc.parameters.bind fun ps =>
      ps.volume_identifier.bind fun vid => vid.center_xyz) = none) :
    validate_tool_calls (some spec_schema_check) b = false ∧
      execute_tool_calls (some spec_schema_check) b
        = Except.ok [⟨false, "Schema validation failed", none⟩] := by
  have hcheck : spec_schema_check b = false := by
    rw [spec_schema_check, List.all_eq_false]
    refine ⟨tc, htc, ?_⟩
    intro hcontra
    rw [Bool.and_eq_true] at hcontra
    obtain ⟨-, hmatch⟩ := hcontra
    cases hps : tc.parameters with
    | none =>
      rw [hps] at hmatch
      exact Bool.false_ne_true hmatch
    | some ps =>
      rw [hps] at hmatch hmiss
      have hmiss' : ps.volume_identifier.bind (fun vid => vid.center_xyz) = none := hmiss
      have hmatch' : (match ps.volume_identifier with
          | some vid => vid.center_xyz.isSome
          | none => false) = true := hmatch
      cases hvid : ps.volume_identifier with
      | none =>
        rw [hvid] at hmatch'
        exact Bool.false_ne_true hmatch'
      | some vid =>
        rw [hvid] at hmatch' hmiss'
        have hcen : vid.center_xyz = none := hmiss'
        have hsome : vid.center_xyz.isSome = true := hmatch'
        rw [hcen] at hsome
        exact Bool.false_ne_true hsome
  have hval : validate_tool_calls (some spec_schema_check) b = false := hcheck
  refine ⟨hval, ?_⟩
  simp only [execute_tool_calls, hval, Bool.false_eq_true, if_false]

/-- Witness for C7: a concrete one-command batch missing `center_xyz`. -/
theorem c7_schema_failure_aggregate_witness :
    validate_tool_calls (some spec_schema_check)
        ⟨[⟨some "extrude_faces_in_volume", some emptyParams⟩]⟩ = false ∧
      execute_tool_calls (some spec_schema_check)
        ⟨[⟨some "extrude_faces_in_volume", some emptyParams⟩]⟩
        = Except.ok [⟨false, "Schema validation failed", none⟩] :=
  c7_schema_failure_aggregate ⟨[⟨some "extrude_faces_in_volume", some emptyParams⟩]⟩
    ⟨some "extrude_faces_in_volume", some emptyParams⟩ (List.mem_cons_self _ _) rfl

theorem strContains_concat_right (s pat : String) : strContains (s ++ pat) pat :=
  strContains_append_left s pat pat (strContains_self pat)

theorem linesStr_contains (rs : List ExecutionResult) :
    ∀ (start i : ℕ) (hi : i < rs.length),
      strContains (linesStr start rs) (lineFor (start + i) (rs.get ⟨i, hi⟩)) := by
  induction rs with
  | nil =>
    intro start i hi
    exact absurd hi (by simp)
  | cons r rest ih =>
    intro start i hi
    cases i with
    | zero =>
      simp only [Nat.add_zero]
      exact strContains_append_right _ _ _ (strContains_self _)
    | succ j =>
      have h := ih (start + 1) j (by simpa using hi)
      rw [show start + (j + 1) = start + 1 + j by omega]
      exact strContains_append_left _ _ _ h

/-- C10: generating the report for an empty result list hits the unguarded
division by the total count and raises `ZeroDivisionError`; for every
non-empty result list report generation terminates normally. -/
theorem c10_empty_report_zero_division :
    generate_execution_report [] = Except.error "ZeroDivisionError" ∧
      ∀ rs : List ExecutionResult, rs ≠ [] →
        ∃ s, generate_execution_report rs = Except.ok s := by
  constructor
  · rfl
  · intro rs hrs
    have hlen : rs.length ≠ 0 := by simpa [List.length_eq_zero] using hrs
    refine ⟨reportHeader rs.length (rs.filter (fun r => r.success)).length
        (rs.length - (rs.filter (fun r => r.success)).length)
        (((rs.filter (fun r => r.success)).length : ℚ) / (rs.length : ℚ) * 100)
        ++ linesStr 0 rs, ?_⟩
    simp only [generate_execution_report]
    rw [if_neg hlen]

/-- Witness for C10: the empty list raises; a one-element list reports. -/
theorem c10_empty_report_zero_division_witness :
    generate_execution_report [] = Except.error "ZeroDivisionError" ∧
      ∃ s, generate_execution_report [⟨true, "ok", none⟩] = Except.ok s :=
  ⟨c10_empty_report_zero_division.1,
    c10_empty_report_zero_division.2 [⟨true, "ok", none⟩] (List.cons_ne_nil _ _)⟩

/-- C8: for every non-empty result list the report contains the total,
successful and failed counts (with total = successful + failed), the success
rate formatted to one decimal place, and one numbered line per result in
original order with its marker, message, and affected-element count when
present. -/
theorem c8_report_content (rs : List ExecutionResult) (h : rs ≠ []) :
    ∃ s, generate_execution_report rs = Except.ok s ∧
      (rs.filter (fun r => r.success)).length
          + (rs.length - (rs.filter (fun r => r.success)).length) = rs.length ∧
      strContains s ("Total Operations: " ++ toString rs.length) ∧
      strContains s ("Successful: " ++ toString (rs.filter (fun r => r.success)).length) ∧
      strContains s ("Failed: "
        ++ toString (rs.length - (rs.filter (fun r => r.success)).length)) ∧
      strContains s ("Success Rate: "
        ++ fmtFixed1 (((rs.filter (fun r => r.success)).length : ℚ) / (rs.length : ℚ) * 100)
        ++ "%") ∧
      ∀ i (hi : i < rs.length), strContains s (lineFor i (rs.get ⟨i, hi⟩)) := by
  have hlen : rs.length ≠ 0 := by simpa [List.length_eq_zero] using h
  refine ⟨reportHeader rs.length (rs.filter (fun r => r.success)).length
      (rs.length - (rs.filter (fun r => r.success)).length)
      (((rs.filter (fun r => r.success)).length : ℚ) / (rs.length : ℚ) * 100)
      ++ linesStr 0 rs, ?_, ?_, ?_, ?_, ?_, ?_, ?_⟩
  · simp only [generate_execution_report]
    rw [if_neg hlen]
  · exact Nat.add_sub_cancel' (List.length_filter_le _ _)
  · refine strContains_append_right _ _ _ ?_
    exact strContains_append_left _ _ _ (strContains_self_append _ _)
  · refine strContains_append_right _ _ _ ?_
    refine strContains_append_left _ _ _ ?_
    refine strContains_append_left _ _ _ ?_
    refine strContains_append_left _ _ _ ?_
    exact strContains_self_append _ _
  · refine strContains_append_right _ _ _ ?_
    refine strContains_append_left _ _ _ ?_
    refine strContains_append_left _ _ _ ?_
    refine strContains_append_left _ _ _ ?_
    refine strContains_append_left _ _ _ ?_
    refine strContains_append_left _ _ _ ?_
    exact strContains_self_append _ _
  · refine strContains_append_right _ _ _ ?_
    refine strContains_append_left _ _ _ ?_
    refine strContains_append_left _ _ _ ?_
    refine strContains_append_left _ _ _ ?_
    refine strContains_append_left _ _ _ ?_
    refine strContains_append_left _ _ _ ?_
    refine strContains_append_left _ _ _ ?_
    refine strContains_append_left _ _ _ ?_
    exact strContains_self_append _ _
  · intro i hi
    refine strContains_append_left _ _ _ ?_
    have hline := linesStr_contains rs 0 i hi
    rw [Nat.zero_add] at hline
    exact hline

/-- Witness for C8: a two-command batch with one failure then one success
reports total 2, successful 1, failed 1 and a 50.0% success rate. -/
theorem c8_report_content_witness :
    fmtFixed1 (((1 : ℚ)) / ((2 : ℚ)) * 100) = "50.0" ∧
      (∃ s, generate_execution_report
          [⟨false, "Unknown function: bogus_op", none⟩,
           ⟨true, "Scaled vertices in box volume at [0, 0, 0] by factor 2", some [5, 8]⟩]
          = Except.ok s ∧
        (([⟨false, "Unknown function: bogus_op", none⟩,
           ⟨true, "Scaled vertices in box volume at [0, 0, 0] by factor 2",
             some [5, 8]⟩] : List ExecutionResult).filter (fun r => r.success)).length
            + (([⟨false, "Unknown function: bogus_op", none⟩,
                ⟨true, "Scaled vertices in box volume at [0, 0, 0] by factor 2",
                  some [5, 8]⟩] : List ExecutionResult).length
              - (([⟨false, "Unknown function: bogus_op", none⟩,
                  ⟨true, "Scaled vertices in box volume at [0, 0, 0] by factor 2",
                    some [5, 8]⟩] : List ExecutionResult).filter
                  (fun r => r.success)).length)
          = ([⟨false, "Unknown function: bogus_op", none⟩,
              ⟨true, "Scaled vertices in box volume at [0, 0, 0] by factor 2",
                some [5, 8]⟩] : List ExecutionResult).length ∧
        strContains s ("Total Operations: "
          ++ toString ([⟨false, "Unknown function: bogus_op", none⟩,
              ⟨true, "Scaled vertices in box volume at [0, 0, 0] by factor 2",
                some [5, 8]⟩] : List ExecutionResult).length) ∧
        strContains s ("Successful: "
          ++ toString (([⟨false, "Unknown function: bogus_op", none⟩,
              ⟨true, "Scaled vertices in box volume at [0, 0, 0] by factor 2",
                some [5, 8]⟩] : List ExecutionResult).filter
              (fun r => r.success)).length) ∧
        strContains s ("Failed: "
          ++ toString (([⟨false, "Unknown function: bogus_op", none⟩,
              ⟨true, "Scaled vertices in box volume at [0, 0, 0] by factor 2",
                some [5, 8]⟩] : List ExecutionResult).length
            - (([⟨false, "Unknown function: bogus_op", none⟩,
                ⟨true, "Scaled vertices in box volume at [0, 0, 0] by factor 2",
                  some [5, 8]⟩] : List ExecutionResult).filter
                (fun r => r.success)).length)) ∧
        strContains s ("Success Rate: "
          ++ fmtFixed1 (((([⟨false, "Unknown function: bogus_op", none⟩,
              ⟨true, "Scaled vertices in box volume at [0, 0, 0] by factor 2",
                some [5, 8]⟩] : List ExecutionResult).filter
              (fun r => r.success)).length : ℚ)
            / (([⟨false, "Unknown function: bogus_op", none⟩,
                ⟨true, "Scaled vertices in box volume at [0, 0, 0] by factor 2",
                  some [5, 8]⟩] : List ExecutionResult).length : ℚ) * 100)
          ++ "%") ∧
        ∀ i (hi : i < ([⟨false, "Unknown function: bogus_op", none⟩,
            ⟨true, "Scaled vertices in box volume at [0, 0, 0] by factor 2",
              some [5, 8]⟩] : List ExecutionResult).length),
          strContains s (lineFor i
            (([⟨false, "Unknown function: bogus_op", none⟩,
              ⟨true, "Scaled vertices in box volume at [0, 0, 0] by factor 2",
                some [5, 8]⟩] : List ExecutionResult).get ⟨i, hi⟩))) :=
  ⟨by
    norm_num [fmtFixed1, roundHalfEven]
    rfl,
    c8_report_content
      [⟨false, "Unknown function: bogus_op", none⟩,
       ⟨true, "Scaled vertices in box volume at [0, 0, 0] by factor 2", some [5, 8]⟩]
      (List.cons_ne_nil _ _)⟩

/-- The operation-defining parameter of each of the seven operations, formatted
as the handlers format it (with the handlers' defaults when absent). -/
def defining_param_text (fn : String) (ps : Params) : String :=
  if fn = "extrude_faces_in_volume" then toString (ps.extrude_vector.getD [0, 0, 1])
  else if fn = "scale_vertices_in_volume" then toString (ps.scale_factor.getD 1)
  else if fn = "apply_material_to_volume" then ps.material_name.getD "DefaultMaterial"
  else if fn = "subdivide_faces_in_volume" then toString (ps.subdivision_level.getD 1)
  else if fn = "inset_faces_in_volume" then toString (ps.inset_depth.getD (1 / 10))
  else ""

def c9Params : Params :=
  ⟨some c1Box, none, none,
   some [[2, 0, 0, 0], [0, 2, 0, 0], [0, 0, 2, 0], [0, 0, 0, 1]],
   none, none, none, none⟩

/-- Counterexample to C9 as stated: a successful transform dispatch whose
message names the kind and center but not the supplied transform matrix —
the matrix text appears nowhere in the message. -/
theorem c9_message_counterexample :
    execute_single_tool "transform_vertices_in_volume" c9Params
        = Except.ok ⟨true,
          "Applied transformation to vertices in box volume at [0, 0, 0]",
          some [3, 6, 9, 13, 18, 21]⟩ ∧
      ¬ strContains "Applied transformation to vertices in box volume at [0, 0, 0]"
        (toString (([[2, 0, 0, 0], [0, 2, 0, 0], [0, 0, 2, 0], [0, 0, 0, 1]]
          : List (List ℚ)))) := by
  constructor
  · rfl
  · decide

/-- C9 amended: every successfully dispatched command's message names the
volume kind and the center; the extrude, scale, material, subdivide and inset
handlers additionally name their defining parameter, but the transform and
deform handlers omit their matrix parameter from the message. -/
theorem c9_message_content_amended (fn : String) (hfn : fn ∈ sevenOps)
    (ps : Params) (vid : VolumeId) (c : Vec3)
    (hv : ps.volume_identifier = some vid) (hc : vid.center_xyz = some c) :
    ∃ r, execute_single_tool fn ps = Except.ok r ∧ r.success = true ∧
      strContains r.message vid.type ∧
      strContains r.message (fmtVec c) ∧
      (fn ≠ "transform_vertices_in_volume" → fn ≠ "deform_volume_lattice" →
        strContains r.message (defining_param_text fn ps)) ∧
      (fn = "transform_vertices_in_volume" →
        r.message = "Applied transformation to vertices in " ++ vid.type
          ++ " volume at " ++ fmtVec c) ∧
      (fn = "deform_volume_lattice" →
        r.message = "Applied lattice deformation to " ++ vid.type
          ++ " volume at " ++ fmtVec c) := by
  simp only [sevenOps, List.mem_cons, List.not_mem_nil, or_false] at hfn
  rcases hfn with rfl | rfl | rfl | rfl | rfl | rfl | rfl
  · -- extrude_faces_in_volume
    simp only [execute_single_tool, hv, getOpt, Bind.bind, Except.bind, if_true,
      _extrude_faces_in_volume, hc]
    refine ⟨_, rfl, rfl, ?_, ?_, ?_, ?_, ?_⟩
    · exact strContains_append_right _ _ _ (strContains_append_right _ _ _
        (strContains_append_right _ _ _ (strContains_append_right _ _ _
          (strContains_concat_right _ _))))
    · exact strContains_append_right _ _ _ (strContains_append_right _ _ _
        (strContains_concat_right _ _))
    · intro _ _
      exact strContains_concat_right _ _
    · intro h
      exact absurd h (by decide)
    · intro h
      exact absurd h (by decide)
  · -- scale_vertices_in_volume
    simp only [execute_single_tool, hv, getOpt, Bind.bind, Except.bind, if_true,
      _scale_vertices_in_volume, hc]
    rw [if_neg (show ¬("scale_vertices_in_volume" = "extrude_faces_in_volume") by decide)]
    refine ⟨_, rfl, rfl, ?_, ?_, ?_, ?_, ?_⟩
    · exact strContains_append_right _ _ _ (strContains_append_right _ _ _
        (strContains_append_right _ _ _ (strContains_append_right _ _ _
          (strContains_concat_right _ _))))
    · exact strContains_append_right _ _ _ (strContains_append_right _ _ _
        (strContains_concat_right _ _))
    · intro _ _
      exact strContains_concat_right _ _
    · intro h
      exact absurd h (by decide)
    · intro h
      exact absurd h (by decide)
  · -- transform_vertices_in_volume
    simp only [execute_single_tool, hv, getOpt, Bind.bind, Except.bind, if_true,
      _transform_vertices_in_volume, hc]
    rw [if_neg (show ¬("transform_vertices_in_volume" = "extrude_faces_in_volume") by decide),
      if_neg (show ¬("transform_vertices_in_volume" = "scale_vertices_in_volume") by decide)]
    refine ⟨_, rfl, rfl, ?_, ?_, ?_, ?_, ?_⟩
    · exact strContains_append_right _ _ _ (strContains_append_right _ _ _
        (strContains_concat_right _ _))
    · exact strContains_concat_right _ _
    · intro h _
      exact absurd rfl h
    · intro _
      rfl
    · intro h
      exact absurd h (by decide)
  · -- apply_material_to_volume
    simp only [execute_single_tool, hv, getOpt, Bind.bind, Except.bind, if_true,
      _apply_material_to_volume, hc]
    rw [if_neg (show ¬("apply_material_to_volume" = "extrude_faces_in_volume") by decide),
      if_neg (show ¬("apply_material_to_volume" = "scale_vertices_in_volume") by decide),
      if_neg (show ¬("apply_material_to_volume" = "transform_vertices_in_volume") by decide)]
    refine ⟨_, rfl, rfl, ?_, ?_, ?_, ?_, ?_⟩
    · exact strContains_append_right _ _ _ (strContains_append_right _ _ _
        (strContains_concat_right _ _))
    · exact strContains_concat_right _ _
    · intro _ _
      exact strContains_append_right _ _ _ (strContains_append_right _ _ _
        (strContains_append_right _ _ _ (strContains_append_right _ _ _
          (strContains_concat_right _ _))))
    · intro h
      exact absurd h (by decide)
    · intro h
      exact absurd h (by decide)
  · -- deform_volume_lattice
    simp only [execute_single_tool, hv, getOpt, Bind.bind, Except.bind, if_true,
      _deform_volume_lattice, hc]
    rw [if_neg (show ¬("deform_volume_lattice" = "extrude_faces_in_volume") by decide),
      if_neg (show ¬("deform_volume_lattice" = "scale_vertices_in_volume") by decide),
      if_neg (show ¬("deform_volume_lattice" = "transform_vertices_in_volume") by decide),
      if_neg (show ¬("deform_volume_lattice" = "apply_material_to_volume") by decide)]
    refine ⟨_, rfl, rfl, ?_, ?_, ?_, ?_, ?_⟩
    · exact strContains_append_right _ _ _ (strContains_append_right _ _ _
        (strContains_concat_right _ _))
    · exact strContains_concat_right _ _
    · intro _ h
      exact absurd rfl h
    · intro h
      exact absurd h (by decide)
    · intro _
      rfl
  · -- subdivide_faces_in_volume
    simp only [execute_single_tool, hv, getOpt, Bind.bind, Except.bind, if_true,
      _subdivide_faces_in_volume, hc]
    rw [if_neg (show ¬("subdivide_faces_in_volume" = "extrude_faces_in_volume") by decide),
      if_neg (show ¬("subdivide_faces_in_volume" = "scale_vertices_in_volume") by decide),
      if_neg (show ¬("subdivide_faces_in_volume" = "transform_vertices_in_volume") by decide),
      if_neg (show ¬("subdivide_faces_in_volume" = "apply_material_to_volume") by decide),
      if_neg (show ¬("subdivide_faces_in_volume" = "deform_volume_lattice") by decide)]
    refine ⟨_, rfl, rfl, ?_, ?_, ?_, ?_, ?_⟩
    · exact strContains_append_right _ _ _ (strContains_append_right _ _ _
        (strContains_append_right _ _ _ (strContains_append_right _ _ _
          (strContains_append_right _ _ _ (strContains_concat_right _ _)))))
    · exact strContains_append_right _ _ _ (strContains_append_right _ _ _
        (strContains_append_right _ _ _ (strContains_concat_right _ _)))
    · intro _ _
      exact strContains_append_right _ _ _ (strContains_concat_right _ _)
    · intro h
      exact absurd h (by decide)
    · intro h
      exact absurd h (by decide)
  · -- inset_faces_in_volume
    simp only [execute_single_tool, hv, getOpt, Bind.bind, Except.bind, if_true,
      _inset_faces_in_volume, hc]
    rw [if_neg (show ¬("inset_faces_in_volume" = "extrude_faces_in_volume") by decide),
      if_neg (show ¬("inset_faces_in_volume" = "scale_vertices_in_volume") by decide),
      if_neg (show ¬("inset_faces_in_volume" = "transform_vertices_in_volume") by decide),
      if_neg (show ¬("inset_faces_in_volume" = "apply_material_to_volume") by decide),
      if_neg (show ¬("inset_faces_in_volume" = "deform_volume_lattice") by decide),
      if_neg (show ¬("inset_faces_in_volume" = "subdivide_faces_in_volume") by decide)]
    refine ⟨_, rfl, rfl, ?_, ?_, ?_, ?_, ?_⟩
    · exact strContains_append_right _ _ _ (strContains_append_right _ _ _
        (strContains_append_right _ _ _ (strContains_append_right _ _ _
          (strContains_append_right _ _ _ (strContains_concat_right _ _)))))
    · exact strContains_append_right _ _ _ (strContains_append_right _ _ _
        (strContains_append_right _ _ _ (strContains_concat_right _ _)))
    · intro _ _
      exact strContains_append_right _ _ _ (strContains_concat_right _ _)
    · intro h
      exact absurd h (by decide)
    · intro h
      exact absurd h (by decide)

/-- Witness for the amended C9: a concrete successful scale dispatch. -/
theorem c9_message_content_amended_witness :
    ∃ r, execute_single_tool "scale_vertices_in_volume"
          ⟨some c1Box, none, some 2, none, none, none, none, none⟩ = Except.ok r ∧
      r.success = true ∧
      strContains r.message c1Box.type ∧
      strContains r.message (fmtVec ⟨0, 0, 0⟩) ∧
      ("scale_vertices_in_volume" ≠ "transform_vertices_in_volume" →
        "scale_vertices_in_volume" ≠ "deform_volume_lattice" →
        strContains r.message (defining_param_text "scale_vertices_in_volume"
          ⟨some c1Box, none, some 2, none, none, none, none, none⟩)) ∧
      ("scale_vertices_in_volume" = "transform_vertices_in_volume" →
        r.message = "Applied transformation to vertices in " ++ c1Box.type
          ++ " volume at " ++ fmtVec ⟨0, 0, 0⟩) ∧
      ("scale_vertices_in_volume" = "deform_volume_lattice" →
        r.message = "Applied lattice deformation to " ++ c1Box.type
          ++ " volume at " ++ fmtVec ⟨0, 0, 0⟩) :=
  c9_message_content_amended "scale_vertices_in_volume" (by decide)
    ⟨some c1Box, none, some 2, none, none, none, none, none⟩ c1Box ⟨0, 0, 0⟩ rfl rfl
